import Mathlib

/-!
Verification of the 3MF codec in `src/libslic3r/Format/3mf.cpp`.

Real-valued quantities (C++ `float` / `double`) are modelled as exact
rationals.  The C standard-library numeric parsers (`atoi`, `atof`) and the
external ZIP / XML layers are outside the repository; where their output
matters the embedding takes them as explicit function parameters, and where
only the control flow matters they are modelled by booleans describing the
outcome of each call.
-/

namespace ThreeMF

/-! ## Rational 3-vectors, 3x3 matrices and affine transforms

`Slic3r::Transform3d` is an Eigen affine transform: a 3x3 linear part plus a
translation, acting on points as `p ↦ A p + t`.  Its `inverse()` is
`(A, t)⁻¹ = (A⁻¹, -A⁻¹ t)`. -/

structure Vec3Q where
  x : ℚ
  y : ℚ
  z : ℚ
deriving DecidableEq

structure Mat3Q where
  m00 : ℚ
  m01 : ℚ
  m02 : ℚ
  m10 : ℚ
  m11 : ℚ
  m12 : ℚ
  m20 : ℚ
  m21 : ℚ
  m22 : ℚ
deriving DecidableEq

def Vec3Q.addV (a b : Vec3Q) : Vec3Q := ⟨a.x + b.x, a.y + b.y, a.z + b.z⟩

def Vec3Q.negV (a : Vec3Q) : Vec3Q := ⟨-a.x, -a.y, -a.z⟩

def Mat3Q.identity : Mat3Q := ⟨1, 0, 0, 0, 1, 0, 0, 0, 1⟩

def Mat3Q.mulVec (m : Mat3Q) (v : Vec3Q) : Vec3Q :=
  ⟨m.m00 * v.x + m.m01 * v.y + m.m02 * v.z,
   m.m10 * v.x + m.m11 * v.y + m.m12 * v.z,
   m.m20 * v.x + m.m21 * v.y + m.m22 * v.z⟩

def Mat3Q.mulMat (a b : Mat3Q) : Mat3Q :=
  ⟨a.m00 * b.m00 + a.m01 * b.m10 + a.m02 * b.m20,
   a.m00 * b.m01 + a.m01 * b.m11 + a.m02 * b.m21,
   a.m00 * b.m02 + a.m01 * b.m12 + a.m02 * b.m22,
   a.m10 * b.m00 + a.m11 * b.m10 + a.m12 * b.m20,
   a.m10 * b.m01 + a.m11 * b.m11 + a.m12 * b.m21,
   a.m10 * b.m02 + a.m11 * b.m12 + a.m12 * b.m22,
   a.m20 * b.m00 + a.m21 * b.m10 + a.m22 * b.m20,
   a.m20 * b.m01 + a.m21 * b.m11 + a.m22 * b.m21,
   a.m20 * b.m02 + a.m21 * b.m12 + a.m22 * b.m22⟩

def Mat3Q.det (m : Mat3Q) : ℚ :=
  m.m00 * (m.m11 * m.m22 - m.m12 * m.m21)
    - m.m01 * (m.m10 * m.m22 - m.m12 * m.m20)
    + m.m02 * (m.m10 * m.m21 - m.m11 * m.m20)

/-- Classical adjugate-over-determinant inverse of a 3x3 matrix, the exact
counterpart of Eigen's numerical `inverse()`. -/
def Mat3Q.inv (m : Mat3Q) : Mat3Q :=
  ⟨(m.m11 * m.m22 - m.m12 * m.m21) / m.det,
   (m.m02 * m.m21 - m.m01 * m.m22) / m.det,
   (m.m01 * m.m12 - m.m02 * m.m11) / m.det,
   (m.m12 * m.m20 - m.m10 * m.m22) / m.det,
   (m.m00 * m.m22 - m.m02 * m.m20) / m.det,
   (m.m02 * m.m10 - m.m00 * m.m12) / m.det,
   (m.m10 * m.m21 - m.m11 * m.m20) / m.det,
   (m.m01 * m.m20 - m.m00 * m.m21) / m.det,
   (m.m00 * m.m11 - m.m01 * m.m10) / m.det⟩

/-- Affine transform `p ↦ lin * p + tr` (Eigen `Transform3d`). -/
structure Transform3Q where
  lin : Mat3Q
  tr : Vec3Q
deriving DecidableEq

def Transform3Q.identity : Transform3Q := ⟨Mat3Q.identity, ⟨0, 0, 0⟩⟩

def Transform3Q.apply (t : Transform3Q) (v : Vec3Q) : Vec3Q :=
  (t.lin.mulVec v).addV t.tr

/-- Eigen affine-transform composition: `(a * b).apply v = a.apply (b.apply v)`. -/
def Transform3Q.comp (a b : Transform3Q) : Transform3Q :=
  ⟨a.lin.mulMat b.lin, (a.lin.mulVec b.tr).addV a.tr⟩

/-- Eigen `Transform3d::inverse()` for an affine transform. -/
def Transform3Q.inverse (t : Transform3Q) : Transform3Q :=
  ⟨t.lin.inv, (t.lin.inv.mulVec t.tr).negV⟩

/-! ## Attribute lookup helpers (3mf.cpp:127-163)

Expat hands attributes as a flat key/value array; `get_attribute_value_charptr`
returns the first value whose key matches. -/

/-- From `get_attribute_value_charptr` (3mf.cpp:127-139). -/
def get_attribute_value (attributes : List (String × String)) (key : String) :
    Option String :=
  match attributes with
  | [] => none
  | (k, v) :: rest => if k = key then some v else get_attribute_value rest key

/-- From `get_attribute_value_string` (3mf.cpp:141-145): missing attribute
yields the empty string. -/
def get_attribute_value_string (attributes : List (String × String))
    (key : String) : String :=
  (get_attribute_value attributes key).getD ""

/-- From `get_attribute_value_float` (3mf.cpp:147-151): missing attribute
yields 0; `atof` is the C library parser, taken as a parameter. -/
def get_attribute_value_float (atof : String → ℚ)
    (attributes : List (String × String)) (key : String) : ℚ :=
  match get_attribute_value attributes key with
  | some text => atof text
  | none => 0

/-- From `get_attribute_value_int` (3mf.cpp:153-157): missing attribute yields
0; `atoi` is the C library parser, taken as a parameter. -/
def get_attribute_value_intM (atoi : String → ℤ)
    (attributes : List (String × String)) (key : String) : ℤ :=
  match get_attribute_value attributes key with
  | some text => atoi text
  | none => 0

/-- From `get_attribute_value_bool` (3mf.cpp:159-163): missing attribute yields
`true`, a present one yields `atoi text != 0`. -/
def get_attribute_value_boolM (atoi : String → ℤ)
    (attributes : List (String × String)) (key : String) : Bool :=
  match get_attribute_value attributes key with
  | some text => atoi text != 0
  | none => true

/-! ## Unit factor and vertex accumulation -/

/-- From `get_unit_factor` (3mf.cpp:196-213). -/
def get_unit_factor (unit : String) : ℚ :=
  if unit = "micron" then 0.001
  else if unit = "centimeter" then 10
  else if unit = "inch" then 25.4
  else if unit = "foot" then 304.8
  else if unit = "meter" then 1000
  else 1

/-- `_3MF_Importer::Geometry` (3mf.cpp:278-293): flat coordinate and index
lists. -/
structure Geometry where
  vertices : List ℚ
  triangles : List ℕ
deriving DecidableEq

/-- From `_3MF_Importer::_handle_start_model` (3mf.cpp:1182-1186): the
`unit` attribute of `<model>` fixes `m_unit_factor`. -/
def handle_start_model (attributes : List (String × String)) : ℚ :=
  get_unit_factor (get_attribute_value_string attributes "unit")

/-- From `_3MF_Importer::_handle_start_vertex` (3mf.cpp:1327-1335): appends the
three coordinates scaled by `m_unit_factor`; missing coordinates default to 0. -/
def handle_start_vertex (atof : String → ℚ) (unit_factor : ℚ)
    (attributes : List (String × String)) (g : Geometry) : Geometry :=
  { g with vertices := g.vertices ++
      [unit_factor * get_attribute_value_float atof attributes "x",
       unit_factor * get_attribute_value_float atof attributes "y",
       unit_factor * get_attribute_value_float atof attributes "z"] }

/-! ## 3MF transform strings (3mf.cpp:165-194) -/

/-- `boost::split` on `" "` with `token_compress_on` (3mf.cpp:176): a maximal
run of spaces acts as a single separator, while a leading or trailing
separator still yields an empty end token.  `skipping` records that the
previous character ended a separator run. -/
def split_spaces_go : List Char → Bool → List Char → List String
  | [], skipping, acc => if skipping then [""] else [String.mk acc.reverse]
  | c :: rest, skipping, acc =>
    if skipping then
      if c = ' ' then split_spaces_go rest true []
      else split_spaces_go rest false [c]
    else
      if c = ' ' then String.mk acc.reverse :: split_spaces_go rest true []
      else split_spaces_go rest false (c :: acc)

def split_spaces (s : String) : List String :=
  split_spaces_go s.toList false []

/-- From `get_transform_from_3mf_specs_string` (3mf.cpp:165-194): the empty
string and any token count other than 12 yield the identity; otherwise the
twelve floats fill the first three rows of the 4x4 matrix in column-major
order (the loop writes `ret(r, c)` for `c = 0..3`, `r = 0..2`, so token
`3 * c + r` lands at row `r`, column `c`; column 3 is the translation). -/
def get_transform_from_3mf_specs_string (atof : String → ℚ) (mat_str : String) :
    Transform3Q :=
  if mat_str = "" then Transform3Q.identity
  else
    let toks := split_spaces mat_str
    if toks.length ≠ 12 then Transform3Q.identity
    else
      let e := fun i => atof (toks.getD i "")
      { lin := ⟨e 0, e 3, e 6, e 1, e 4, e 7, e 2, e 5, e 8⟩
        tr := ⟨e 9, e 10, e 11⟩ }

/-! ## Build items and recursive alias expansion (3mf.cpp:1431-1532) -/

/-- `_3MF_Importer::Component` (3mf.cpp:258-274). -/
structure Component where
  object_id : ℤ
  transform : Transform3Q
deriving DecidableEq

/-- One entry of `m_instances` (3mf.cpp:326-336): the instance added to a
model object (identified by its index), its printable flag and the world
transform to be applied at `</model>`. -/
structure InstanceE where
  model_object_idx : ℤ
  printable : Bool
  transform : Transform3Q
deriving DecidableEq

def MAX_RECURSIONS : ℕ := 10

/-- The `for (const Component& component : it->second)` loop of
`_create_object_instance` (3mf.cpp:1524-1528): recurse into each component
with the composed transform, stopping at the first failure.  `step` is the
recursive call at the next recursion counter. -/
def components_loop
    (step : ℤ → Transform3Q → List InstanceE → Bool × List InstanceE × List String) :
    List Component → Transform3Q → List InstanceE →
      Bool × List InstanceE × List String
  | [], _, instances => (true, instances, [])
  | comp :: rest, transform, instances =>
    match step comp.object_id (transform.comp comp.transform) instances with
    | (false, insts, errs) => (false, insts, errs)
    | (true, insts, errs) =>
      match components_loop step rest transform insts with
      | (ok, insts2, errs2) => (ok, insts2, errs ++ errs2)

/-- From `_3MF_Importer::_create_object_instance` (3mf.cpp:1480-1532).

The C++ recursion is cut off by the `recur_counter > MAX_RECURSIONS` test.
The extra `fuel` argument makes the recursion structural: every call
descending from `handle_start_item` satisfies
`fuel + recur_counter = MAX_RECURSIONS + 2`, so the counter test always fires
strictly before the fuel runs out and the fuel-exhaustion branch is
unreachable.  The result is the returned boolean, the updated `m_instances`
list and the errors recorded by `add_error`. -/
def create_object_instance
    (aliases : ℤ → Option (List Component)) (objects : ℤ → Option ℤ) :
    ℕ → ℤ → Transform3Q → Bool → ℕ → List InstanceE →
      Bool × List InstanceE × List String
  | 0, _, _, _, _, instances => (false, instances, ["out of fuel"])
  | fuel + 1, object_id, transform, printable, recur_counter, instances =>
    if recur_counter > MAX_RECURSIONS then
      (false, instances, ["Too many recursions"])
    else
      match aliases object_id with
      | none => (false, instances, ["Found item with invalid object id"])
      | some [comp] =>
        if comp.object_id = object_id then
          -- aliasing to itself: add one instance to the model object
          match objects object_id with
          | none => (false, instances, ["Found invalid object"])
          | some idx =>
            if idx = -1 then (false, instances, ["Found invalid object"])
            else (true, instances ++ [⟨idx, printable, transform⟩], [])
        else
          components_loop
            (fun oid t insts =>
              create_object_instance aliases objects fuel oid t printable
                (recur_counter + 1) insts)
            [comp] transform instances
      | some comps =>
        components_loop
          (fun oid t insts =>
            create_object_instance aliases objects fuel oid t printable
              (recur_counter + 1) insts)
          comps transform instances

/-- From `_3MF_Importer::_handle_start_item` (3mf.cpp:1431-1445): reads
`objectid`, `transform` (absent ⇒ identity) and `printable` (absent ⇒ true)
and immediately expands the item with `recur_counter = 1`. -/
def handle_start_item (atof : String → ℚ) (atoi : String → ℤ)
    (aliases : ℤ → Option (List Component)) (objects : ℤ → Option ℤ)
    (attributes : List (String × String)) (instances : List InstanceE) :
    Bool × List InstanceE × List String :=
  let object_id := get_attribute_value_intM atoi attributes "objectid"
  let transform := get_transform_from_3mf_specs_string atof
      (get_attribute_value_string attributes "transform")
  let printable := get_attribute_value_boolM atoi attributes "printable"
  create_object_instance aliases objects (MAX_RECURSIONS + 1) object_id
    transform printable 1 instances

/-- From `_3MF_Importer::_handle_start_component` (3mf.cpp:1392-1411): the
referenced id must already be a completed object or an alias; the component
(with transform, absent ⇒ identity) is appended to the current object. -/
def handle_start_component (atof : String → ℚ) (atoi : String → ℤ)
    (objects : ℤ → Option ℤ) (aliases : ℤ → Option (List Component))
    (attributes : List (String × String)) (curr_components : List Component) :
    Bool × List Component × List String :=
  let object_id := get_attribute_value_intM atoi attributes "objectid"
  let transform := get_transform_from_3mf_specs_string atof
      (get_attribute_value_string attributes "transform")
  if (objects object_id).isNone ∧ (aliases object_id).isNone then
    (false, curr_components, ["Found component with invalid object id"])
  else
    (true, curr_components ++ [⟨object_id, transform⟩], [])

/-! ## Volume generation (3mf.cpp:1636-1731) -/

/-- `ObjectMetadata::VolumeMetadata` (3mf.cpp:354-365). -/
structure VolumeMetadata where
  first_triangle_id : ℕ
  last_triangle_id : ℕ
  metadata : List (String × String)
deriving DecidableEq

/-- The per-volume loop of `_3MF_Importer::_generate_volumes`
(3mf.cpp:1646-1728), projected on what the triangle ranges determine: each
range is validated exactly as in the source and, on success, yields a volume
of `last - first + 1` triangles. -/
def generate_volumes_counts (geo_tri_count : ℕ) :
    List VolumeMetadata → Except String (List ℕ)
  | [] => .ok []
  | vd :: rest =>
    if geo_tri_count ≤ vd.first_triangle_id ∨
        geo_tri_count ≤ vd.last_triangle_id ∨
        vd.last_triangle_id < vd.first_triangle_id then
      .error "Found invalid triangle id"
    else
      match generate_volumes_counts geo_tri_count rest with
      | .error e => .error e
      | .ok counts =>
        .ok ((vd.last_triangle_id - vd.first_triangle_id + 1) :: counts)

/-- From `_3MF_Importer::_generate_volumes` (3mf.cpp:1636-1644): the object
must not already carry volumes; `geo_tri_count` is
`geometry.triangles.size() / 3`. -/
def generate_volumes (object_volumes_empty : Bool) (geometry : Geometry)
    (volumes : List VolumeMetadata) : Except String (List ℕ) :=
  if !object_volumes_empty then .error "Found invalid volumes count"
  else generate_volumes_counts (geometry.triangles.length / 3) volumes

/-- `volumes` is a list of consecutive triangle ranges starting at `start`
and together covering exactly `[start, n - 1]`. -/
def coversFrom : ℕ → List VolumeMetadata → ℕ → Bool
  | start, [], n => start = n
  | start, vd :: rest, n =>
    vd.first_triangle_id = start &&
      vd.first_triangle_id ≤ vd.last_triangle_id &&
      coversFrom (vd.last_triangle_id + 1) rest n

/-- The sidecar volume list partitions the triangle range `[0, n - 1]`. -/
def isPartitionOf (n : ℕ) (volumes : List VolumeMetadata) : Bool :=
  coversFrom 0 volumes n

/-! ## Exported and re-imported vertices (3mf.cpp:2172-2181, 1654-1692) -/

/-- From `_3MF_Exporter::_add_mesh_to_object_stream` (3mf.cpp:2172-2181): each
emitted vertex is the volume-local vertex mapped through the volume's local
matrix `volume->get_matrix()`. -/
def exported_vertex (matrix : Transform3Q) (v_local : Vec3Q) : Vec3Q :=
  matrix.apply v_local

/-- From `_3MF_Importer::_generate_volumes` (3mf.cpp:1654-1692): for archive
version > 1, each vertex read from the geometry part is multiplied by the
inverse of the volume's `matrix` metadata before being stored in the volume
mesh. -/
def imported_volume_vertex (version : ℕ) (matrix : Transform3Q) (v : Vec3Q) :
    Vec3Q :=
  if version > 1 then matrix.inverse.apply v else v

/-! ## A pure aliasing chain, used to exercise the recursion bound -/

/-- Translation by `q` along the x axis. -/
def translateX (q : ℚ) : Transform3Q := ⟨Mat3Q.identity, ⟨q, 0, 0⟩⟩

/-- Alias map of a pure aliasing chain `1 → 2 → ⋯ → n`: objects `1..n-1` are
composite objects with a single component referencing the next id with
transform `step`; object `n` is a geometry leaf aliasing itself (the entry
inserted at `</object>`, 3mf.cpp:1288). -/
def chainAliases (n : ℕ) (step : Transform3Q) : ℤ → Option (List Component) :=
  fun i =>
    if 1 ≤ i ∧ i < (n : ℤ) then some [⟨i + 1, step⟩]
    else if i = (n : ℤ) ∧ 1 ≤ n then some [⟨i, Transform3Q.identity⟩]
    else none

/-- `m_objects` for the chain: only the leaf `n` carries geometry, stored as
model object index 0. -/
def chainObjects (n : ℕ) : ℤ → Option ℤ :=
  fun i => if i = (n : ℤ) ∧ 1 ≤ n then some 0 else none

/-- `k`-fold composition `((identity ∘ t) ∘ t) ∘ ⋯`, the transform the chain
accumulates after `k` component hops starting from an identity build item. -/
def compPow (t : Transform3Q) : ℕ → Transform3Q
  | 0 => Transform3Q.identity
  | k + 1 => (compPow t k).comp t

/-! ## Layer-height profile text part (3mf.cpp:794-863, 2250-2286) -/

/-- Value of the leading digit run, used by the `atoi` model. -/
def digitsVal : List Char → ℕ → ℕ
  | [], acc => acc
  | c :: rest, acc =>
    if c.isDigit then digitsVal rest (acc * 10 + (c.toNat - 48)) else acc

/-- Model of C `atoi`: skip leading spaces, optional sign, then the leading
run of digits (0 when there is none). -/
def atoiM (s : String) : ℤ :=
  match s.toList.dropWhile (· = ' ') with
  | '-' :: rest => -(digitsVal rest 0 : ℤ)
  | '+' :: rest => (digitsVal rest 0 : ℤ)
  | cs => (digitsVal cs 0 : ℤ)

/-- `boost::split` with `token_compress_off` (3mf.cpp:810-845): split at every
separator occurrence, keeping empty tokens. -/
def split_on_go (sep : Char) : List Char → List Char → List String
  | [], acc => [String.mk acc.reverse]
  | c :: rest, acc =>
    if c = sep then String.mk acc.reverse :: split_on_go sep rest []
    else split_on_go sep rest (c :: acc)

def split_on (sep : Char) (s : String) : List String :=
  split_on_go sep s.toList []

/-- One line of the loop body of
`_3MF_Importer::_extract_layer_heights_profile_config_from_archive`
(3mf.cpp:812-861): splitting on `|`, `=`, `;`, validating the object id, the
duplicate check, and the profile-length check `size <= 4 || size % 2 != 0`
which skips the line with an error.  Returns the updated
`m_layer_heights_profiles` and the errors recorded by `add_error`. -/
def parse_profile_line (atof : String → ℚ)
    (profiles : List (ℤ × List ℚ)) (errors : List String) (line : String) :
    List (ℤ × List ℚ) × List String :=
  let object_data := split_on '|' line
  if object_data.length ≠ 2 then
    (profiles, errors ++ ["Error while reading object data"])
  else
    let object_data_id := split_on '=' (object_data.getD 0 "")
    if object_data_id.length ≠ 2 then
      (profiles, errors ++ ["Error while reading object id"])
    else
      let object_id := atoiM (object_data_id.getD 1 "")
      if object_id = 0 then
        (profiles, errors ++ ["Found invalid object id"])
      else if (profiles.lookup object_id).isSome then
        (profiles, errors ++ ["Found duplicated layer heights profile"])
      else
        let object_data_profile := split_on ';' (object_data.getD 1 "")
        if object_data_profile.length ≤ 4 ∨ object_data_profile.length % 2 ≠ 0 then
          (profiles, errors ++ ["Found invalid layer heights profile"])
        else
          (profiles ++ [(object_id, object_data_profile.map atof)], errors)

/-- From `_extract_layer_heights_profile_config_from_archive`
(3mf.cpp:794-863): strip one trailing newline, split into lines, process each
line in order. -/
def extract_layer_heights_profile (atof : String → ℚ) (buffer : String) :
    List (ℤ × List ℚ) × List String :=
  -- `if (buffer.back() == '\n') buffer.pop_back();` (3mf.cpp:806-807)
  let cs := buffer.toList
  let cs := if cs.getLast? = some (Char.ofNat 10) then cs.dropLast else cs
  (split_on (Char.ofNat 10) (String.mk cs)).foldl
    (fun acc line => parse_profile_line atof acc.1 acc.2 line) ([], [])

/-- The exporter guard of `_add_layer_height_profile_file_to_archive`
(3mf.cpp:2260): an object's profile is written iff its length is ≥ 4 and
even. -/
def layer_height_profile_written (profile : List ℚ) : Bool :=
  decide (4 ≤ profile.length) && decide (profile.length % 2 = 0)

/-- From `_add_layer_height_profile_file_to_archive` (3mf.cpp:2255-2274): the
object counter is incremented for every model object, and a
`object_id=<count>|...` line is emitted for each object passing the profile
guard. -/
def add_layer_height_profile_lines : ℕ → List (List ℚ) → List (ℕ × List ℚ)
  | _, [] => []
  | count, p :: rest =>
    if layer_height_profile_written p then
      (count + 1, p) :: add_layer_height_profile_lines (count + 1) rest
    else
      add_layer_height_profile_lines (count + 1) rest

/-! ## Version gate and exception propagation (3mf.cpp:120-125, 555-599,
745-777, 1464-1478) -/

def VERSION_3MF : ℕ := 2

/-- Exceptions crossing the importer's frames: the codec's distinguished
`version_error` type (3mf.cpp:120-125) versus a plain `std::runtime_error`. -/
inductive CppException where
  | versionErr (msg : String)
  | runtimeErr (msg : String)
deriving DecidableEq

def version_error_message : String :=
  "The selected 3mf file has been saved with a newer version of PrusaSlicer and is not compatible."

/-- From `_3MF_Importer::_handle_end_metadata` (3mf.cpp:1464-1478): on the
`slic3rpe:Version3mf` metadata, with `m_check_version` set and the parsed
version above `VERSION_3MF`, the distinguished `version_error` is thrown. -/
def handle_end_metadata (check_version : Bool) (version : ℕ) :
    Option CppException :=
  if check_version ∧ version > VERSION_3MF then
    some (.versionErr version_error_message)
  else none

/-- Result of a call as seen by its caller: a boolean return together with the
errors recorded by `add_error`, or a propagating exception. -/
inductive CallResult where
  | ret (ok : Bool) (errors : List String)
  | thrown (e : CppException)
deriving DecidableEq

/-- From `_3MF_Importer::_extract_model_from_archive` (3mf.cpp:745-777): an
exception raised by the metadata handler during parsing is handled by two
catch clauses: a `version_error` is re-raised as a plain `std::runtime_error`
built from its message (3mf.cpp:759-763), and any other exception is recorded
with `add_error` and becomes a `false` return (3mf.cpp:764-768). -/
def extract_model_from_archive (check_version : Bool) (version : ℕ) :
    CallResult :=
  match handle_end_metadata check_version version with
  | some (.versionErr msg) => .thrown (.runtimeErr msg)
  | some (.runtimeErr msg) => .ret false [msg]
  | none => .ret true []

/-- From `_3MF_Importer::_load_model_from_file` (3mf.cpp:572-599) and
`load_3mf` (3mf.cpp:2513-2522): an exception escaping the geometry pass is
re-thrown as a `std::runtime_error` with the same message (3mf.cpp:591-596)
and propagates out of `load_3mf` to its caller; a `false` return from the
geometry pass makes `load` return `false`. -/
def load_3mf_outcome (check_version : Bool) (version : ℕ) : CallResult :=
  match extract_model_from_archive check_version version with
  | .thrown (.versionErr msg) => .thrown (.runtimeErr msg)
  | .thrown (.runtimeErr msg) => .thrown (.runtimeErr msg)
  | .ret false errs => .ret false (errs ++ ["Archive does not contain a valid model"])
  | .ret true _ => .ret true []

/-- Whether the caller of `load` receives the distinguished version-error
type. -/
def CallResult.isVersionError : CallResult → Bool
  | .thrown (.versionErr _) => true
  | _ => false

/-! ## The store pipeline (3mf.cpp:1858-1977, 2044-2248) -/

/-- The data of one `ModelObject` the store pipeline branches on: how many
instances it has and, per volume, the data the mesh writer branches on. -/
structure VolumeW where
  repaired : Bool
  has_shared_vertices : Bool
  vertices : ℕ
deriving DecidableEq

structure ObjectE where
  instances : ℕ
  volumes : List VolumeW
deriving DecidableEq

/-- Result of one part-writing step: normal success, a boolean failure with
the errors recorded by `add_error`, or a C++ exception propagating out of the
step uncaught. -/
inductive StepResult (α : Type) where
  | ok (a : α)
  | err (errors : List String)
  | exc (msg : String)
deriving DecidableEq

/-- Outcomes of the external zip-writer calls (`mz_zip_writer_add_mem`,
`mz_zip_writer_finalize_archive`) and the optional-part flags. -/
structure SaveSteps where
  openOk : Bool
  contentTypesOk : Bool
  thumbnailPresent : Bool
  thumbnailOk : Bool
  relationshipsOk : Bool
  modelZipOk : Bool
  layerHeightsOk : Bool
  configRangesOk : Bool
  slaOk : Bool
  configPresent : Bool
  printConfigOk : Bool
  modelConfigOk : Bool
  finalizeOk : Bool
deriving DecidableEq

/-- Outcome of `_save_model_to_file` as seen by its caller, paired with the
on-disk state of the output file: either a boolean return with the errors
recorded by `add_error`, or a C++ exception escaping the call (no catch
exists anywhere up through `store_3mf`, so no `boost::filesystem::remove`
runs on that path). -/
inductive StoreOutcome where
  | ret (success : Bool) (fileOnDisk : Bool) (errors : List String)
  | thrown (msg : String) (fileOnDisk : Bool)
deriving DecidableEq

def StoreOutcome.succeeded : StoreOutcome → Bool
  | .ret ok _ _ => ok
  | .thrown _ _ => false

/-- Whether the call returned `false` (as opposed to returning `true` or
throwing). -/
def StoreOutcome.returnedFalse : StoreOutcome → Bool
  | .ret ok _ _ => !ok
  | .thrown _ _ => false

def StoreOutcome.isThrown : StoreOutcome → Bool
  | .ret _ _ _ => false
  | .thrown _ _ => true

def StoreOutcome.fileRemains : StoreOutcome → Bool
  | .ret _ f _ => f
  | .thrown _ f => f

def StoreOutcome.errors : StoreOutcome → List String
  | .ret _ _ e => e
  | .thrown _ _ => []

/-- The vertices loop of `_3MF_Exporter::_add_mesh_to_object_stream`
(3mf.cpp:2150-2182), one volume at a time: an unrepaired mesh or one without
shared vertices makes the writer throw a `std::runtime_error`
(3mf.cpp:2156-2159), and a volume with no vertices records
"Found invalid mesh" and returns false (3mf.cpp:2163-2168). -/
def add_mesh_to_object_stream : List VolumeW → StepResult Unit
  | [] => .ok ()
  | v :: rest =>
    if !v.repaired then .exc "store_3mf() requires repair()"
    else if !v.has_shared_vertices then
      .exc "store_3mf() requires shared vertices"
    else if v.vertices = 0 then .err ["Found invalid mesh"]
    else add_mesh_to_object_stream rest

/-- From `_3MF_Exporter::_add_object_to_model_stream` (3mf.cpp:2104-2143):
one build item per instance; the first instance also emits the mesh
(3mf.cpp:2116-2123), so with zero instances the mesh writer is never called.
An exception from the mesh writer propagates; a `false` return adds
"Unable to add mesh to archive".  Returns the number of build items the
object contributes. -/
def add_object_to_model_stream (obj : ObjectE) : StepResult ℕ :=
  if obj.instances = 0 then .ok 0
  else
    match add_mesh_to_object_stream obj.volumes with
    | .exc m => .exc m
    | .err e => .err (e ++ ["Unable to add mesh to archive"])
    | .ok _ => .ok obj.instances

/-- One step of the `for (ModelObject* obj : model.objects)` loop
(3mf.cpp:2064-2080): a previous failure or exception short-circuits,
otherwise the object is written and its build items counted. -/
def model_file_object_step (acc : StepResult ℕ) (obj : ObjectE) :
    StepResult ℕ :=
  match acc with
  | .exc m => .exc m
  | .err e => .err e
  | .ok n =>
    match add_object_to_model_stream obj with
    | .exc m => .exc m
    | .err e => .err (e ++ ["Unable to add object to archive"])
    | .ok k => .ok (n + k)

/-- From `_3MF_Exporter::_add_model_file_to_archive` (3mf.cpp:2044-2102): the
object loop (first failure aborts), then `_add_build_to_model_stream`
(3mf.cpp:2220-2248) which fails with "No build item found" when no instance
produced a build item, then the zip write of the geometry part. -/
def add_model_file_to_archive (modelZipOk : Bool) (objects : List ObjectE) :
    StepResult Unit :=
  match objects.foldl model_file_object_step (StepResult.ok 0) with
  | .exc m => .exc m
  | .err e => .err e
  | .ok build_count =>
    if build_count = 0 then
      .err ["No build item found", "Unable to add build to archive"]
    else if !modelZipOk then .err ["Unable to add model file to archive"]
    else .ok ()

/-- From `_3MF_Exporter::_save_model_to_file` (3mf.cpp:1858-1977): the fixed
part sequence; every step that reports failure closes the zip writer, removes
the output file from disk (`boost::filesystem::remove`) and returns `false`;
an exception thrown inside a step (the mesh writer's `std::runtime_error`)
propagates out of the function without removal, leaving the
partially-written file on disk; a fully successful run, including
`mz_zip_writer_finalize_archive`, returns `true` with the file in place. -/
def save_model_to_file (s : SaveSteps) (objects : List ObjectE) :
    StoreOutcome :=
  if !s.openOk then .ret false false ["Unable to open the file"]
  else if !s.contentTypesOk then
    .ret false false ["Unable to add content types file to archive"]
  else if s.thumbnailPresent && !s.thumbnailOk then
    .ret false false ["Unable to add thumbnail file to archive"]
  else if !s.relationshipsOk then
    .ret false false ["Unable to add relationships file to archive"]
  else
    match add_model_file_to_archive s.modelZipOk objects with
    | .exc m => .thrown m true
    | .err e => .ret false false e
    | .ok _ =>
      if !s.layerHeightsOk then
        .ret false false ["Unable to add layer heights profile file to archive"]
      else if !s.configRangesOk then
        .ret false false ["Unable to add layer heights profile file to archive"]
      else if !s.slaOk then
        .ret false false ["Unable to add sla support points file to archive"]
      else if s.configPresent && !s.printConfigOk then
        .ret false false ["Unable to add print config file to archive"]
      else if !s.modelConfigOk then
        .ret false false ["Unable to add model config file to archive"]
      else if !s.finalizeOk then
        .ret false false ["Unable to finalize the archive"]
      else .ret true true []

/-! ## Sidecar config metadata handler (3mf.cpp:1556-1628) -/

/-- Sidecar per-object metadata (`ObjectMetadata`, 3mf.cpp:352-371). -/
structure ObjectMetadataE where
  metadata : List (String × String)
  volumes : List VolumeMetadata
deriving DecidableEq

/-- Sidecar parser state: `m_objects_metadata` and `m_curr_config`
(3mf.cpp:320-324, 395-396). -/
structure ConfigParserState where
  objects_metadata : List (ℤ × ObjectMetadataE)
  curr_object_id : ℤ
  curr_volume_id : ℤ
deriving DecidableEq

/-- C++ conversion of a signed 64-bit value to `size_t`. -/
def toSizeT (i : ℤ) : ℕ := (i % (2 ^ 64)).toNat

def updateAssoc (l : List (ℤ × ObjectMetadataE)) (k : ℤ)
    (f : ObjectMetadataE → ObjectMetadataE) : List (ℤ × ObjectMetadataE) :=
  l.map fun kv => if kv.1 = k then (kv.1, f kv.2) else kv

/-- From `_3MF_Importer::_handle_start_config_metadata` (3mf.cpp:1601-1628):
`type="object"` appends the pair to the object's metadata; `type="volume"`
appends it to the current volume only when `size_t(m_curr_config.volume_id)`
indexes into the object's volume list and is otherwise silently dropped while
still returning `true`; any other type records an error and fails. -/
def handle_start_config_metadata (st : ConfigParserState)
    (attributes : List (String × String)) :
    Bool × ConfigParserState × List String :=
  match st.objects_metadata.lookup st.curr_object_id with
  | none => (false, st, ["Cannot assign metadata to valid object id"])
  | some om =>
    let type := get_attribute_value_string attributes "type"
    let key := get_attribute_value_string attributes "key"
    let value := get_attribute_value_string attributes "value"
    if type = "object" then
      let om2 := updateAssoc st.objects_metadata st.curr_object_id
        (fun o => { o with metadata := o.metadata ++ [(key, value)] })
      (true, { st with objects_metadata := om2 }, [])
    else if type = "volume" then
      if toSizeT st.curr_volume_id < om.volumes.length then
        let upd := fun (vd : VolumeMetadata) =>
          { vd with metadata := vd.metadata ++ [(key, value)] }
        let om2 := updateAssoc st.objects_metadata st.curr_object_id (fun o =>
          let vols := o.volumes.mapIdx
            (fun idx vd => if idx = toSizeT st.curr_volume_id then upd vd else vd)
          { o with volumes := vols })
        (true, { st with objects_metadata := om2 }, [])
      else (true, st, [])
    else (false, st, ["Found invalid metadata type"])

/-! ## Helper lemmas -/

/-- For an affine transform with invertible linear part, applying the inverse
after the transform is the identity (exact arithmetic). -/
theorem Transform3Q.inverse_apply_apply (m : Transform3Q) (v : Vec3Q)
    (h : m.lin.det ≠ 0) : m.inverse.apply (m.apply v) = v := by
  obtain ⟨⟨a, b, c, d, e, f, g, h2, i⟩, ⟨tx, ty, tz⟩⟩ := m
  obtain ⟨x, y, z⟩ := v
  simp only at h
  simp only [Transform3Q.inverse, Transform3Q.apply, Mat3Q.inv, Mat3Q.mulVec,
    Vec3Q.addV, Vec3Q.negV]
  rw [Vec3Q.mk.injEq]
  refine ⟨?_, ?_, ?_⟩ <;>
    (field_simp [h]; simp only [Mat3Q.det] at h ⊢; ring)

/-- A chain of ranges covering `[start, n - 1]` can only start at or below
`n`. -/
theorem coversFrom_le (vols : List VolumeMetadata) :
    ∀ start n, coversFrom start vols n = true → start ≤ n := by
  induction vols with
  | nil =>
    intro start n h
    simp only [coversFrom, decide_eq_true_eq] at h
    omega
  | cons vd rest ih =>
    intro start n h
    simp only [coversFrom, Bool.and_eq_true, decide_eq_true_eq] at h
    obtain ⟨⟨h1, h2⟩, h3⟩ := h
    have := ih _ _ h3
    omega

/-- On a list of ranges covering `[start, n - 1]`, the per-volume validation
of `_generate_volumes` passes and the produced triangle counts sum to
`n - start`. -/
theorem generate_volumes_counts_covers (vols : List VolumeMetadata) :
    ∀ start n, coversFrom start vols n = true →
      generate_volumes_counts n vols =
        .ok (vols.map fun vd =>
          vd.last_triangle_id - vd.first_triangle_id + 1) ∧
      (vols.map fun vd =>
          vd.last_triangle_id - vd.first_triangle_id + 1).sum + start = n := by
  induction vols with
  | nil =>
    intro start n h
    simp only [coversFrom, decide_eq_true_eq] at h
    simp [generate_volumes_counts, h]
  | cons vd rest ih =>
    intro start n h
    simp only [coversFrom, Bool.and_eq_true, decide_eq_true_eq] at h
    obtain ⟨⟨hf, hfl⟩, hrest⟩ := h
    obtain ⟨ihok, ihsum⟩ := ih _ _ hrest
    have hlast : vd.last_triangle_id + 1 ≤ n := coversFrom_le rest _ _ hrest
    have hcheck : ¬(n ≤ vd.first_triangle_id ∨ n ≤ vd.last_triangle_id ∨
        vd.last_triangle_id < vd.first_triangle_id) := by omega
    refine ⟨?_, ?_⟩
    · simp [generate_volumes_counts, if_neg hcheck, ihok]
    · simp only [List.map_cons, List.sum_cons]
      omega

/-- If some range in the list is invalid, `_generate_volumes` reports
"Found invalid triangle id". -/
theorem generate_volumes_counts_invalid (n : ℕ) (vols : List VolumeMetadata)
    (vd : VolumeMetadata) (hmem : vd ∈ vols)
    (hbad : n ≤ vd.first_triangle_id ∨ n ≤ vd.last_triangle_id ∨
      vd.last_triangle_id < vd.first_triangle_id) :
    generate_volumes_counts n vols = .error "Found invalid triangle id" := by
  induction vols with
  | nil => cases hmem
  | cons w rest ih =>
    by_cases hhead : n ≤ w.first_triangle_id ∨ n ≤ w.last_triangle_id ∨
        w.last_triangle_id < w.first_triangle_id
    · simp [generate_volumes_counts, if_pos hhead]
    · have hvdrest : vd ∈ rest := by
        rcases List.mem_cons.mp hmem with h | h
        · subst h; exact absurd hbad hhead
        · exact h
      simp [generate_volumes_counts, if_neg hhead, ih hvdrest]

/-- The chain transform accumulated from unit x-translations is the
x-translation by the hop count. -/
theorem compPow_translateX (k : ℕ) :
    compPow (translateX 1) k = translateX (k : ℚ) := by
  induction k with
  | zero =>
    simp [compPow, translateX, Transform3Q.identity, Mat3Q.identity]
  | succ k ih =>
    rw [compPow, ih]
    simp only [translateX, Transform3Q.comp, Mat3Q.identity, Mat3Q.mulMat,
      Mat3Q.mulVec, Vec3Q.addV]
    rw [Transform3Q.mk.injEq, Mat3Q.mk.injEq, Vec3Q.mk.injEq]
    push_cast
    refine ⟨⟨?_, ?_, ?_, ?_, ?_, ?_, ?_, ?_, ?_⟩, ?_, ?_, ?_⟩ <;> ring

/-- The model-file object loop maps objects without instances to zero build
items (with zero instances the mesh writer, and hence its throw, is never
reached). -/
theorem foldl_zero_instances (objects : List ObjectE)
    (h : ∀ o ∈ objects, o.instances = 0) :
    objects.foldl model_file_object_step (StepResult.ok 0) =
      StepResult.ok 0 := by
  induction objects with
  | nil => rfl
  | cons o rest ih =>
    have ho : o.instances = 0 := h o (List.mem_cons_self o rest)
    simp only [List.foldl_cons, model_file_object_step,
      add_object_to_model_stream, if_pos ho, Nat.add_zero]
    exact ih fun x hx => h x (List.mem_cons_of_mem o hx)

/-- All external zip-writer calls succeed, no thumbnail, a print config is
present. -/
def allOkSteps : SaveSteps :=
  ⟨true, true, false, true, true, true, true, true, true, true, true, true, true⟩

/-- Expanding a build item whose object id aliases itself
(3mf.cpp:1498-1519) attaches exactly one instance carrying the item's world
transform. -/
theorem create_self_alias (aliases : ℤ → Option (List Component))
    (objects : ℤ → Option ℤ) (oid idx : ℤ) (T : Transform3Q) (p : Bool)
    (instances : List InstanceE)
    (ha : aliases oid = some [⟨oid, Transform3Q.identity⟩])
    (ho : objects oid = some idx) (hidx : idx ≠ -1) :
    create_object_instance aliases objects (MAX_RECURSIONS + 1) oid T p 1
        instances =
      (true, instances ++ [⟨idx, p, T⟩], []) := by
  simp only [create_object_instance, ha, ho]
  rw [if_neg (by decide : ¬(1 > MAX_RECURSIONS))]
  simp [hidx]

/-! ## Claim theorems -/

/-- **C1.** The claim states that a semicolon-separated float list of even
length ≥ 4 is recorded as a layer-height profile, and that shorter or
odd-length lists are skipped with an error without aborting the parse.  The
code disagrees at the boundary: the exporter writes every profile of even
length ≥ 4 (3mf.cpp:2260), but the importer skips any list of length ≤ 4
(`size() <= 4`, 3mf.cpp:846), so the even length-4 list written by the
exporter itself is rejected on re-import with "Found invalid layer heights
profile".  Lists of even length ≥ 6 are recorded, and a malformed line does
not stop later lines from being processed. -/
theorem C1_layer_profile_boundary :
    layer_height_profile_written [0.2, 0.15, 0.3, 0.15] = true ∧
    add_layer_height_profile_lines 0 [[0.2, 0.15, 0.3, 0.15]] =
      [(1, [0.2, 0.15, 0.3, 0.15])] ∧
    (∀ atof : String → ℚ,
      extract_layer_heights_profile atof "object_id=1|0.2;0.15;0.3;0.15\n" =
        ([], ["Found invalid layer heights profile"])) ∧
    (∀ atof : String → ℚ,
      extract_layer_heights_profile atof
          "object_id=1|0.1;0.2;0.3\nobject_id=2|0.1;0.2;0.3;0.4;0.5;0.6\n" =
        ([(2, [atof "0.1", atof "0.2", atof "0.3", atof "0.4", atof "0.5",
            atof "0.6"])],
         ["Found invalid layer heights profile"])) :=
  ⟨by decide, rfl, fun _ => rfl, fun _ => rfl⟩

/-- **C2.** An archive whose `slic3rpe:Version3mf` metadata parses to 99 with
`check_version = true` aborts the parse, and with `check_version = false` it
loads successfully; but the version-mismatch error does not reach the caller
of `load` as the distinguished `version_error` type: the catch clause at
3mf.cpp:759-763 re-raises it as a plain `std::runtime_error` (type erased,
message preserved), contradicting the claim. -/
theorem C2_version_gate_type_erased :
    load_3mf_outcome true 99 = .thrown (.runtimeErr version_error_message) ∧
    (load_3mf_outcome true 99).isVersionError = false ∧
    load_3mf_outcome false 99 = .ret true [] :=
  ⟨rfl, rfl, rfl⟩

/-- **C3.** For every volume carrying a local matrix `M` (with invertible
linear part) in an archive of version ≥ 2, the writer emits each vertex equal
to `M` applied to the volume-local vertex (3mf.cpp:2172-2181) and the reader
multiplies each read vertex by the inverse of `M` (3mf.cpp:1654-1692), so the
reconstructed volume-local vertex equals the original exactly; float
arithmetic is modelled as exact rationals, matching the claim's "exact at
max_digits10 float precision". -/
theorem C3_matrix_roundtrip (version : ℕ) (M : Transform3Q) (v_local : Vec3Q)
    (hver : 2 ≤ version) (hdet : M.lin.det ≠ 0) :
    exported_vertex M v_local = M.apply v_local ∧
    imported_volume_vertex version M (exported_vertex M v_local) = v_local := by
  refine ⟨rfl, ?_⟩
  unfold imported_volume_vertex exported_vertex
  rw [if_pos (by omega : version > 1)]
  exact Transform3Q.inverse_apply_apply M v_local hdet

theorem C3_matrix_roundtrip_witness :
    2 ≤ 2 ∧
    (Transform3Q.mk Mat3Q.identity ⟨5, 0, 0⟩).lin.det ≠ 0 ∧
    imported_volume_vertex 2 (Transform3Q.mk Mat3Q.identity ⟨5, 0, 0⟩)
        (exported_vertex (Transform3Q.mk Mat3Q.identity ⟨5, 0, 0⟩) ⟨1, 2, 3⟩) =
      ⟨1, 2, 3⟩ := by
  have hdet : (Transform3Q.mk Mat3Q.identity ⟨5, 0, 0⟩).lin.det ≠ 0 := by
    simp [Mat3Q.det, Mat3Q.identity]
  exact ⟨by decide, hdet,
    (C3_matrix_roundtrip 2 (Transform3Q.mk Mat3Q.identity ⟨5, 0, 0⟩) ⟨1, 2, 3⟩
      (by decide) hdet).2⟩

/-- **C7.** The `unit` attribute of `<model>` selects the scale factor
micron→0.001, centimeter→10, inch→25.4, foot→304.8, meter→1000, and 1.0 for
any other string including "millimeter" (3mf.cpp:196-213), and each stored
vertex coordinate equals the source coordinate times that factor
(3mf.cpp:1327-1335). -/
theorem C7_unit_scaling :
    get_unit_factor "micron" = 0.001 ∧
    get_unit_factor "centimeter" = 10 ∧
    get_unit_factor "inch" = 25.4 ∧
    get_unit_factor "foot" = 304.8 ∧
    get_unit_factor "meter" = 1000 ∧
    (∀ u : String, u ≠ "micron" → u ≠ "centimeter" → u ≠ "inch" →
      u ≠ "foot" → u ≠ "meter" → get_unit_factor u = 1) ∧
    (∀ (atof : String → ℚ) (model_attrs vertex_attrs : List (String × String))
        (g : Geometry),
      (handle_start_vertex atof (handle_start_model model_attrs) vertex_attrs
          g).vertices =
        g.vertices ++
          [handle_start_model model_attrs *
              get_attribute_value_float atof vertex_attrs "x",
           handle_start_model model_attrs *
              get_attribute_value_float atof vertex_attrs "y",
           handle_start_model model_attrs *
              get_attribute_value_float atof vertex_attrs "z"]) := by
  refine ⟨rfl, rfl, rfl, rfl, rfl, ?_, ?_⟩
  · intro u h1 h2 h3 h4 h5
    simp [get_unit_factor, h1, h2, h3, h4, h5]
  · intro atof ma va g
    rfl

theorem C7_unit_scaling_witness : get_unit_factor "millimeter" = 1 :=
  C7_unit_scaling.2.2.2.2.2.1 "millimeter" (by decide) (by decide) (by decide)
    (by decide) (by decide)

/-- **C4.** For an object with `N` triangles and a sidecar volume list whose
ranges partition `[0, N-1]`, volume generation succeeds and the produced
volumes' triangle counts (`last - first + 1` each) sum to `N`; if any range
has `first > last`, or `first` or `last` not below `N`, it records
"Found invalid triangle id" and fails (3mf.cpp:1636-1731). -/
theorem C4_triangle_range_slicing :
    (∀ (g : Geometry) (vols : List VolumeMetadata),
      isPartitionOf (g.triangles.length / 3) vols = true →
      generate_volumes true g vols =
        .ok (vols.map fun vd => vd.last_triangle_id - vd.first_triangle_id + 1) ∧
      (vols.map fun vd => vd.last_triangle_id - vd.first_triangle_id + 1).sum =
        g.triangles.length / 3) ∧
    (∀ (g : Geometry) (vols : List VolumeMetadata) (vd : VolumeMetadata),
      vd ∈ vols →
      (g.triangles.length / 3 ≤ vd.first_triangle_id ∨
        g.triangles.length / 3 ≤ vd.last_triangle_id ∨
        vd.last_triangle_id < vd.first_triangle_id) →
      generate_volumes true g vols = .error "Found invalid triangle id") := by
  constructor
  · intro g vols h
    obtain ⟨hok, hsum⟩ := generate_volumes_counts_covers vols 0 _ h
    refine ⟨?_, by omega⟩
    simp [generate_volumes, hok]
  · intro g vols vd hmem hbad
    simp [generate_volumes, generate_volumes_counts_invalid _ vols vd hmem hbad]

theorem C4_triangle_range_slicing_witness :
    isPartitionOf ((⟨[], List.replicate 30 0⟩ : Geometry).triangles.length / 3)
      [⟨0, 3, []⟩, ⟨4, 9, []⟩] = true ∧
    generate_volumes true ⟨[], List.replicate 30 0⟩ [⟨0, 3, []⟩, ⟨4, 9, []⟩] =
      .ok ([(⟨0, 3, []⟩ : VolumeMetadata), ⟨4, 9, []⟩].map fun vd =>
        vd.last_triangle_id - vd.first_triangle_id + 1) ∧
    generate_volumes true ⟨[], List.replicate 30 0⟩ [⟨3, 2, []⟩] =
      .error "Found invalid triangle id" :=
  ⟨by decide,
   (C4_triangle_range_slicing.1 ⟨[], List.replicate 30 0⟩
     [⟨0, 3, []⟩, ⟨4, 9, []⟩] (by decide)).1,
   C4_triangle_range_slicing.2 ⟨[], List.replicate 30 0⟩ [⟨3, 2, []⟩] ⟨3, 2, []⟩
     (by decide) (by decide)⟩

/-- **C5.** A build item resolved against a pure aliasing chain of depth ≤ 10
(the build-item step itself counting as depth 1) expands successfully into
one leaf instance whose world transform is the composition of the hop
transforms (`compPow`, equal to a translation by the hop count), while a
depth-11 chain records "Too many recursions", returns false and attaches zero
instances (3mf.cpp:1431-1445, 1480-1532). -/
theorem C5_alias_depth_bound :
    (∀ n : ℕ, 1 ≤ n → n ≤ 10 →
      create_object_instance (chainAliases n (translateX 1)) (chainObjects n)
          (MAX_RECURSIONS + 1) 1 Transform3Q.identity true 1 [] =
        (true, [⟨0, true, compPow (translateX 1) (n - 1)⟩], [])) ∧
    (∀ k : ℕ, compPow (translateX 1) k = translateX (k : ℚ)) ∧
    create_object_instance (chainAliases 11 (translateX 1)) (chainObjects 11)
        (MAX_RECURSIONS + 1) 1 Transform3Q.identity true 1 [] =
      (false, [], ["Too many recursions"]) := by
  refine ⟨?_, compPow_translateX, rfl⟩
  intro n h1 h10
  interval_cases n <;> rfl

theorem C5_alias_depth_bound_witness :
    1 ≤ 10 ∧ 10 ≤ 10 ∧
    create_object_instance (chainAliases 10 (translateX 1)) (chainObjects 10)
        (MAX_RECURSIONS + 1) 1 Transform3Q.identity true 1 [] =
      (true, [⟨0, true, compPow (translateX 1) (10 - 1)⟩], []) :=
  ⟨by decide, by decide, C5_alias_depth_bound.1 10 (by decide) (by decide)⟩

/-- **C6 (counterexample).** The claim "every failure during store returns
false and removes the partially-written output file, so no failed store
leaves an output file behind" is false on the code: storing an object whose
first instanced volume is unrepaired makes the mesh writer throw
`std::runtime_error("store_3mf() requires repair()")` (3mf.cpp:2156-2157);
no catch exists up through `store_3mf`, so `boost::filesystem::remove` never
runs — the store fails without returning false and the partially-written
file (content types and relationships parts already added) stays on disk. -/
theorem C6_store_atomic_counterexample :
    (save_model_to_file allOkSteps [⟨1, [⟨false, true, 8⟩]⟩]).succeeded =
      false ∧
    (save_model_to_file allOkSteps [⟨1, [⟨false, true, 8⟩]⟩]).returnedFalse =
      false ∧
    (save_model_to_file allOkSteps [⟨1, [⟨false, true, 8⟩]⟩]).fileRemains =
      true ∧
    save_model_to_file allOkSteps [⟨1, [⟨false, true, 8⟩]⟩] =
      .thrown "store_3mf() requires repair()" true :=
  ⟨rfl, rfl, rfl, rfl⟩

/-- **C6 (amended).** Every store failure in which a step reports failure —
failure to add any part and failure of the final archive finalization —
returns false with the partially-written output file removed from disk, and
a successful store leaves the file in place; but a store during which the
mesh writer throws (unrepaired mesh or missing shared vertices,
3mf.cpp:2156-2159) propagates the exception to the caller and leaves the
partially-written file on disk.  Formally: on every input the output file
remains exactly when the call succeeded or threw (3mf.cpp:1858-1977). -/
theorem C6_store_atomic_amended (s : SaveSteps) (objects : List ObjectE) :
    (save_model_to_file s objects).fileRemains =
      ((save_model_to_file s objects).succeeded ||
        (save_model_to_file s objects).isThrown) := by
  unfold save_model_to_file
  repeat' split
  all_goals rfl

/-- **C8.** An `<item>` with no `transform` attribute produces an instance
with identity world transform, a `<component>` with no `transform` attribute
records an identity component transform, and a present transform string of
exactly twelve space-separated floats is parsed as the first three rows of a
4x4 matrix in column-major order (3mf.cpp:165-194, 1392-1411, 1431-1445). -/
theorem C8_identity_default_and_layout :
    (∀ atof : String → ℚ,
      get_transform_from_3mf_specs_string atof "" = Transform3Q.identity) ∧
    (∀ (atof : String → ℚ) (atoi : String → ℤ)
        (aliases : ℤ → Option (List Component)) (objects : ℤ → Option ℤ)
        (attrs : List (String × String)) (instances : List InstanceE) (idx : ℤ),
      get_attribute_value attrs "transform" = none →
      aliases (get_attribute_value_intM atoi attrs "objectid") =
        some [⟨get_attribute_value_intM atoi attrs "objectid",
          Transform3Q.identity⟩] →
      objects (get_attribute_value_intM atoi attrs "objectid") = some idx →
      idx ≠ -1 →
      handle_start_item atof atoi aliases objects attrs instances =
        (true, instances ++ [⟨idx, get_attribute_value_boolM atoi attrs "printable",
          Transform3Q.identity⟩], [])) ∧
    (∀ (atof : String → ℚ) (atoi : String → ℤ)
        (objects : ℤ → Option ℤ) (aliases : ℤ → Option (List Component))
        (attrs : List (String × String)) (comps : List Component),
      get_attribute_value attrs "transform" = none →
      ¬((objects (get_attribute_value_intM atoi attrs "objectid")).isNone ∧
        (aliases (get_attribute_value_intM atoi attrs "objectid")).isNone) →
      handle_start_component atof atoi objects aliases attrs comps =
        (true, comps ++ [⟨get_attribute_value_intM atoi attrs "objectid",
          Transform3Q.identity⟩], [])) ∧
    (∀ (atof : String → ℚ) (s : String),
      (split_spaces s).length = 12 →
      get_transform_from_3mf_specs_string atof s =
        ⟨⟨atof ((split_spaces s).getD 0 ""), atof ((split_spaces s).getD 3 ""),
          atof ((split_spaces s).getD 6 ""),
          atof ((split_spaces s).getD 1 ""), atof ((split_spaces s).getD 4 ""),
          atof ((split_spaces s).getD 7 ""),
          atof ((split_spaces s).getD 2 ""), atof ((split_spaces s).getD 5 ""),
          atof ((split_spaces s).getD 8 "")⟩,
         ⟨atof ((split_spaces s).getD 9 ""), atof ((split_spaces s).getD 10 ""),
          atof ((split_spaces s).getD 11 "")⟩⟩) := by
  refine ⟨fun _ => rfl, ?_, ?_, ?_⟩
  · intro atof atoi aliases objects attrs instances idx htr ha ho hidx
    have hts : get_attribute_value_string attrs "transform" = "" := by
      simp [get_attribute_value_string, htr]
    simp only [handle_start_item, hts]
    exact create_self_alias aliases objects _ idx _ _ instances ha ho hidx
  · intro atof atoi objects aliases attrs comps htr hvalid
    have hts : get_attribute_value_string attrs "transform" = "" := by
      simp [get_attribute_value_string, htr]
    simp only [handle_start_component, hts]
    rw [if_neg hvalid]
    rfl
  · intro atof s hlen
    have hs : s ≠ "" := by
      intro h
      subst h
      simp [split_spaces, split_spaces_go] at hlen
    simp [get_transform_from_3mf_specs_string, hs, hlen]

theorem C8_identity_default_and_layout_witness :
    handle_start_item (fun _ => 0) atoiM
        (fun i => if i = 1 then some [⟨1, Transform3Q.identity⟩] else none)
        (fun i => if i = 1 then some 0 else none)
        [("objectid", "1")] [] =
      (true, [⟨0, get_attribute_value_boolM atoiM [("objectid", "1")] "printable",
        Transform3Q.identity⟩], []) ∧
    handle_start_component (fun _ => 0) atoiM
        (fun i => if i = 1 then some 0 else none)
        (fun i => if i = 1 then some [⟨1, Transform3Q.identity⟩] else none)
        [("objectid", "1")] [] =
      (true, [⟨1, Transform3Q.identity⟩], []) ∧
    get_transform_from_3mf_specs_string (fun _ => 0)
        "1 0 0 0 1 0 0 0 1 10 20 30" =
      ⟨⟨(fun _ => (0 : ℚ)) "1", (fun _ => (0 : ℚ)) "0", (fun _ => (0 : ℚ)) "0",
        (fun _ => (0 : ℚ)) "0", (fun _ => (0 : ℚ)) "1", (fun _ => (0 : ℚ)) "0",
        (fun _ => (0 : ℚ)) "0", (fun _ => (0 : ℚ)) "0", (fun _ => (0 : ℚ)) "1"⟩,
       ⟨(fun _ => (0 : ℚ)) "10", (fun _ => (0 : ℚ)) "20",
        (fun _ => (0 : ℚ)) "30"⟩⟩ :=
  ⟨C8_identity_default_and_layout.2.1 (fun _ => 0) atoiM
      (fun i => if i = 1 then some [⟨1, Transform3Q.identity⟩] else none)
      (fun i => if i = 1 then some 0 else none)
      [("objectid", "1")] [] 0 rfl rfl rfl (by decide),
   C8_identity_default_and_layout.2.2.1 (fun _ => 0) atoiM
      (fun i => if i = 1 then some 0 else none)
      (fun i => if i = 1 then some [⟨1, Transform3Q.identity⟩] else none)
      [("objectid", "1")] [] rfl (by decide),
   C8_identity_default_and_layout.2.2.2 (fun _ => 0)
      "1 0 0 0 1 0 0 0 1 10 20 30" (by decide)⟩

/-- **C9.** For a model in which no object contributes any instance, the
build-section writer records "No build item found" and fails, so store
returns false and the partially-written output file is removed
(3mf.cpp:2220-2227, 1903-1911). -/
theorem C9_no_build_item (objects : List ObjectE)
    (h : ∀ o ∈ objects, o.instances = 0) :
    save_model_to_file allOkSteps objects =
      .ret false false
        ["No build item found", "Unable to add build to archive"] ∧
    "No build item found" ∈ (save_model_to_file allOkSteps objects).errors := by
  have hfold := foldl_zero_instances objects h
  have hmf : add_model_file_to_archive true objects =
      .err ["No build item found", "Unable to add build to archive"] := by
    simp [add_model_file_to_archive, hfold]
  constructor
  · simp [save_model_to_file, allOkSteps, hmf]
  · simp [save_model_to_file, allOkSteps, hmf, StoreOutcome.errors]

theorem C9_no_build_item_witness :
    (∀ o ∈ [(⟨0, []⟩ : ObjectE)], o.instances = 0) ∧
    save_model_to_file allOkSteps [⟨0, []⟩] =
      .ret false false
        ["No build item found", "Unable to add build to archive"] :=
  ⟨by decide, (C9_no_build_item [⟨0, []⟩] (by decide)).1⟩

/-- **C10.** A sidecar `<metadata type="volume">` element encountered while
the current object's volume list is empty is silently discarded: the handler
returns true, the state is unchanged, and no error is recorded
(3mf.cpp:1601-1628; `size_t(m_curr_config.volume_id)` can never index into an
empty volume list). -/
theorem C10_volume_metadata_dropped (st : ConfigParserState)
    (attrs : List (String × String)) (om : ObjectMetadataE)
    (hlook : st.objects_metadata.lookup st.curr_object_id = some om)
    (hempty : om.volumes = [])
    (htype : get_attribute_value_string attrs "type" = "volume") :
    handle_start_config_metadata st attrs = (true, st, []) := by
  unfold handle_start_config_metadata
  rw [hlook]
  simp [htype, hempty]

theorem C10_volume_metadata_dropped_witness :
    handle_start_config_metadata ⟨[(1, ⟨[], []⟩)], 1, -1⟩
        [("type", "volume"), ("key", "k"), ("value", "v")] =
      (true, ⟨[(1, ⟨[], []⟩)], 1, -1⟩, []) :=
  C10_volume_metadata_dropped ⟨[(1, ⟨[], []⟩)], 1, -1⟩ _ ⟨[], []⟩ rfl rfl rfl

end ThreeMF
